import Mathlib

/-!
Shallow embedding of the SugarNXT-Hackathon NIR prediction service
(`src/trainer.py` and `src/backend/server.py`) and proofs about it.

Conventions of the embedding:
* Python floats are modelled as exact rationals (`ℚ`).  The one float
  operation with no exact rational counterpart, the square root inside
  `np.std`, is passed in as an explicit function parameter `sqrt`; no
  theorem below depends on its values.
* Fallible Python code (raised exceptions) is modelled with `Except PyErr`.
* Randomness (`np.random.normal`, `np.random.uniform`) is modelled by
  oracle arguments carrying the draws: `np.random.normal(0, s, n)` for
  `s ≥ 0` is `s` times a vector of standard-normal draws, and it raises
  `ValueError` for a negative scale `s`.
* External artifacts loaded at startup (the pickled PLS model, the
  isolation forest, the test pool) are parameters of the session context,
  exactly the interface the server code uses (`predict`, anomaly
  classification, index-addressable pool).
-/

/-- Python exceptions that the embedded code can raise. -/
inductive PyErr where
  /-- a `ValueError`, as raised by scipy and numpy, with its message -/
  | valueError (msg : String)
  /-- numpy `AxisError`: an `axis=` argument out of bounds for the array's dimension -/
  | axisError
  /-- `json.JSONDecodeError` raised by `json.loads` on malformed text -/
  | jsonDecodeError
  deriving DecidableEq, Repr

/-! ## trainer.py: preprocess_spectra -/

/-- Sum of `t ^ k` over `t = 0, …, m-1`: the abscissa power sums used by the
degree-2 least-squares fit of `np.polyfit`. -/
def powIdxSum (m k : ℕ) : ℚ :=
  ((List.range m).map (fun t => ((t : ℚ)) ^ k)).sum

/-- Sum of `t ^ k * ys[t]` over the indexed entries of `ys`: the moment sums
on the right-hand side of the degree-2 normal equations. -/
def momentSum (ys : List ℚ) (k : ℕ) : ℚ :=
  (ys.enum.map (fun p => ((p.1 : ℚ)) ^ k * p.2)).sum

/-- Least-squares fit of a degree-2 polynomial `a + b*t + c*t^2` to the
points `(t, ys[t])`, `t = 0, …, ys.length - 1`, by Cramer's rule on the
normal equations.  This is the exact-arithmetic value of
`np.polyfit(arange(len(ys)), ys, 2)` (which scipy's `savgol_filter`
uses for its `mode='interp'` edge handling). -/
def polyfit2 (ys : List ℚ) : ℚ × ℚ × ℚ :=
  let m := ys.length
  let s0 := powIdxSum m 0
  let s1 := powIdxSum m 1
  let s2 := powIdxSum m 2
  let s3 := powIdxSum m 3
  let s4 := powIdxSum m 4
  let t0 := momentSum ys 0
  let t1 := momentSum ys 1
  let t2 := momentSum ys 2
  let det := s0 * (s2 * s4 - s3 * s3) - s1 * (s1 * s4 - s3 * s2)
      + s2 * (s1 * s3 - s2 * s2)
  let a := (t0 * (s2 * s4 - s3 * s3) - s1 * (t1 * s4 - s3 * t2)
      + s2 * (t1 * s3 - s2 * t2)) / det
  let b := (s0 * (t1 * s4 - s3 * t2) - t0 * (s1 * s4 - s3 * s2)
      + s2 * (s1 * t2 - t1 * s2)) / det
  let c := (s0 * (s2 * t2 - s3 * t1) - s1 * (s1 * t2 - s3 * t0)
      + t0 * (s1 * s3 - s2 * s2)) / det
  (a, b, c)

/-- Derivative `b + 2*c*t` of the fitted polynomial of `polyfit2`,
evaluated at abscissa `t`. -/
def polyfit2Deriv (ys : List ℚ) (t : ℚ) : ℚ :=
  b + 2 * c * t
where
  b : ℚ := (polyfit2 ys).2.1
  c : ℚ := (polyfit2 ys).2.2

/-- The interior stencil of `scipy.signal.savgol_filter(window_length=15,
polyorder=2, deriv=1, delta=1.0)`: the derivative at the centre of the
least-squares quadratic fit over the 15-point window centred at `t`,
which works out to `Σ_j j_centered * ys[t+j] / 280`.  Meaningful for
`7 ≤ t ≤ ys.length - 8`. -/
def sgInterior (ys : List ℚ) (t : ℕ) : ℚ :=
  (((List.range 15).map (fun (j : ℕ) => ((j : ℚ) - 7) * ys.getD (t + j - 7) 0)).sum) / 280

/-- Exact-arithmetic model of `scipy.signal.savgol_filter(ys,
window_length=15, polyorder=2, deriv=1)` on a 1-D signal with the default
`mode='interp'`: the interior points use the central stencil, and the first
and last 7 points use the derivative of a degree-2 polynomial fit to the
first (resp. last) 15 samples, evaluated at their positions inside that
edge window. -/
def savgol15 (ys : List ℚ) : List ℚ :=
  let n := ys.length
  (List.range n).map (fun (t : ℕ) =>
    if t < 7 then polyfit2Deriv (ys.take 15) (t : ℚ)
    else if t + 8 ≤ n then sgInterior ys t
    else polyfit2Deriv (ys.drop (n - 15)) ((t - (n - 15) : ℕ) : ℚ))

/-- Model of `np.mean(r)` for a 1-D row (and of each row mean of
`np.mean(X, axis=1)`). -/
def npMean (r : List ℚ) : ℚ := r.sum / (r.length : ℚ)

/-- Model of the population variance `np.var(r)` of a row; `np.std` is its
square root. -/
def npVar (r : List ℚ) : ℚ :=
  ((r.map (fun x => (x - npMean r) ^ 2)).sum) / (r.length : ℚ)

/-- One row of the Standard Normal Variate step of `preprocess_spectra`:
subtract the row's own mean and divide by its standard deviation plus the
stabilizing constant `1e-8`.  The float square root inside `np.std` is the
parameter `sqrt` applied to the row variance. -/
def snvRow (sqrt : ℚ → ℚ) (r : List ℚ) : List ℚ :=
  r.map (fun x => (x - npMean r) / (sqrt (npVar r) + 1 / 100000000))

/-- The per-row composite applied by `preprocess_spectra`: Savitzky–Golay
smoothing/derivative along the wavelength axis followed by SNV. -/
def processRow (sqrt : ℚ → ℚ) (r : List ℚ) : List ℚ :=
  snvRow sqrt (savgol15 r)

/-- The message of the `ValueError` scipy raises when the signal is shorter
than the filter window in `mode='interp'`. -/
def windowLengthMsg : String :=
  "If mode is interp, window_length must be less than or equal to the size of x."

/-- Model of `trainer.preprocess_spectra` applied to a 2-D array (a batch of
spectra, one per row) — the shape in which both the trainer and the server
call it.  `savgol_filter` raises a `ValueError` when the wavelength axis is
shorter than the window length 15; otherwise both the filter and SNV act on
each row independently. -/
def preprocess_spectra (sqrt : ℚ → ℚ) (X : List (List ℚ)) : Except PyErr (List (List ℚ)) :=
  if X.any (fun r => decide (r.length < 15)) then
    .error (.valueError windowLengthMsg)
  else
    .ok (X.map (processRow sqrt))

/-- Model of `trainer.preprocess_spectra` applied to a single 1-D spectrum.
`savgol_filter` accepts 1-D input (filtering along the only axis, still
requiring at least 15 samples), but the SNV step then evaluates
`np.mean(X_sg, axis=1, keepdims=True)` on a 1-D array, which raises a numpy
`AxisError`: the function never returns a value for 1-D input. -/
def preprocess_spectra1d (x : List ℚ) : Except PyErr (List ℚ) :=
  if x.length < 15 then .error (.valueError windowLengthMsg)
  else
    let _X_sg := savgol15 x
    .error .axisError

/-! ## backend/server.py: noise injection -/

/-- Model of `server.add_industrial_noise(spectrum, noise_level)`.
`np.random.normal(0, noise_level, spectrum.shape)` raises a `ValueError`
for a negative scale; for a nonnegative scale its draws are `noise_level`
times the standard-normal oracle draws `draws`.  The single uniform
baseline-drift draw from `[-0.01, 0.01]` is the oracle value `drift`.
The returned spectrum is `spectrum * (1 + noise) + baseline_drift`. -/
def add_industrial_noise (spectrum : List ℚ) (noise_level : ℚ)
    (draws : List ℚ) (drift : ℚ) : Except PyErr (List ℚ) :=
  if noise_level < 0 then .error (.valueError "scale < 0")
  else
    .ok ((spectrum.zipWith (fun s z => s * (1 + noise_level * z)) draws).map
      (fun v => v + drift))

/-! ## backend/server.py: websocket session -/

/-- A parsed per-tick client config message: a JSON object whose
`noiseLevel` and `threshold` fields are each optional. -/
structure MsgCfg where
  noiseLevel : Option ℚ
  threshold : Option ℚ
  deriving DecidableEq, Repr

/-- One inbound websocket text frame: either text that `json.loads`
rejects, or a parsed config object. -/
inductive Inbound where
  /-- text that is not valid JSON: `json.loads` raises `JSONDecodeError` -/
  | malformed
  /-- a parsed JSON config object -/
  | parsed (cfg : MsgCfg)

/-- The noise percentage the tick uses: `config.get("noiseLevel", 2.0)`. -/
def effNoisePct (cfg : MsgCfg) : ℚ := cfg.noiseLevel.getD 2

/-- The alert threshold the tick uses: `config.get("threshold", 13.0)`. -/
def effThreshold (cfg : MsgCfg) : ℚ := cfg.threshold.getD 13

/-- The random draws consumed by one tick's call to
`add_industrial_noise`: the standard-normal vector and the uniform
baseline drift. -/
structure TickOracle where
  draws : List ℚ
  drift : ℚ

/-- The immutable per-process context of `websocket_endpoint`: the loaded
PLS model's `predict` (composed with `np.squeeze`), the isolation forest's
anomaly classification (`predict(x)[0] == -1`), the float square root used
inside `np.std`, and the reference pool `X_test`/`y_test`. -/
structure ServerCtx where
  predict : List ℚ → ℚ
  isAnomaly : List ℚ → Bool
  sqrt : ℚ → ℚ
  Xtest : List (List ℚ)
  ytest : List ℚ

/-- Modular cursor advancement `idx = (idx + 1) % len(X_test)` performed at
the end of every tick. -/
def advanceCursor (n idx : ℕ) : ℕ := (idx + 1) % n

/-- The fields of one outbound payload of `websocket_endpoint` (the
wall-clock fields `timestamp` and `inference_ms` are real time and are not
modelled). -/
structure Payload where
  actual_pol : ℚ
  predicted_pol : ℚ
  noisy_spectrum : List ℚ
  alert : Bool
  anomaly : Bool
  deriving DecidableEq, Repr

/-- One iteration of the `while True` loop of `websocket_endpoint`, from
`receive_text` to `send_text`: parse the message (malformed JSON raises),
resolve `noiseLevel`/`threshold` with `config.get` defaults, perturb the
pool sample at the cursor, preprocess the one-row batch, predict and score
it, build the payload, and advance the cursor.  Any raised exception is
returned as `Except.error`. -/
def serverTick (ctx : ServerCtx) (idx : ℕ) (inb : Inbound) (o : TickOracle) :
    Except PyErr (Payload × ℕ) :=
  match inb with
  | .malformed => .error .jsonDecodeError
  | .parsed config =>
    let noise_pct := effNoisePct config
    let raw_spectrum := ctx.Xtest.getD idx []
    let actual_pol := ctx.ytest.getD idx 0
    (add_industrial_noise raw_spectrum (noise_pct / 100) o.draws o.drift).bind
      fun noisy_spectrum =>
    (preprocess_spectra ctx.sqrt [noisy_spectrum]).bind fun X_live_prep =>
    let pred_pol := ctx.predict (X_live_prep.getD 0 [])
    let is_anomaly := ctx.isAnomaly (X_live_prep.getD 0 [])
    .ok ({ actual_pol := actual_pol
         , predicted_pol := pred_pol
         , noisy_spectrum := noisy_spectrum
         , alert := decide (pred_pol < effThreshold config)
         , anomaly := is_anomaly }
        , advanceCursor ctx.Xtest.length idx)

/-- A whole websocket session: the `while True` loop of
`websocket_endpoint` run over the session's inbound frames, starting from
cursor `idx` (the handler starts at `idx = 0`).  Returns the payloads sent
and how the loop ended: `none` when every frame was processed (the session
is still active, ending only on client disconnect), or `some e` when a tick
raised an exception `e` — the loop body catches nothing but
`WebSocketDisconnect`, so `e` propagates, the loop exits, and no further
frame of the session is processed. -/
def runSession (ctx : ServerCtx) :
    ℕ → List (Inbound × TickOracle) → List Payload × Option PyErr
  | _, [] => ([], none)
  | idx, (inb, o) :: rest =>
    match serverTick ctx idx inb o with
    | .error e => ([], some e)
    | .ok (p, idx2) =>
      let r := runSession ctx idx2 rest
      (p :: r.1, r.2)

/-- The cursor value after `t` completed ticks of a session over a pool of
`n` samples: starts at 0, advances modularly each tick. -/
def cursorAt (n : ℕ) : ℕ → ℕ
  | 0 => 0
  | t + 1 => advanceCursor n (cursorAt n t)

/-! ## backend/server.py: report generation -/

/-- The request body of `POST /api/report`. -/
structure ReportData where
  timestamp : List ℚ
  predicted_pol : List ℚ
  actual_pol : List ℚ
  deriving DecidableEq, Repr

/-- The three aggregate figures `generate_report` draws into the PDF. -/
structure ReportSummary where
  totalSamples : ℕ
  avgPol : ℚ
  lowPolAlerts : ℕ
  deriving DecidableEq, Repr

/-- The aggregation logic of `server.generate_report` (the PDF rendering
around it is out of scope): sample count `len(data.predicted_pol)`,
average `sum(...) / len(...) if data.predicted_pol else 0`, and breach
count `sum(1 for p in data.predicted_pol if p < threshold)` with the fixed
`threshold = 13.0`. -/
def generate_report (data : ReportData) : ReportSummary :=
  let threshold : ℚ := 13
  { totalSamples := data.predicted_pol.length
  , avgPol :=
      if data.predicted_pol.isEmpty then 0
      else data.predicted_pol.sum / (data.predicted_pol.length : ℚ)
  , lowPolAlerts := (data.predicted_pol.filter (fun p => decide (p < threshold))).length }

/-! ## trainer.py: train_pls -/

/-- One iteration of the component search in `trainer.train_pls`: keep
`(best_n, lowest_mse)` unless the current score is strictly lower.
`lowest_mse` starts at `float('inf')`, modelled as `⊤ : WithTop ℚ`. -/
def scanStep (f : ℕ → ℚ) (st : ℕ × WithTop ℚ) (i : ℕ) : ℕ × WithTop ℚ :=
  if (f i : WithTop ℚ) < st.2 then (i, (f i : WithTop ℚ)) else st

/-- The selected component count of `trainer.train_pls`: scan
`i in range(1, 15)` in ascending order, starting from
`best_n = 1, lowest_mse = inf`, updating on strictly smaller
cross-validation score `f i`. -/
def train_pls_best_n (f : ℕ → ℚ) : ℕ :=
  ((List.range' 1 14).foldl (scanStep f) (1, (⊤ : WithTop ℚ))).1

/-- The cross-validation score of a candidate component count `i` in
`train_pls`: `-cross_val_score(...).mean()`, i.e. the arithmetic mean of
the 5 per-fold mean-squared errors `foldMse i` (the folds are the fixed
`KFold(n_splits=5, shuffle=True, random_state=42)` partition). -/
def cv_mse (foldMse : ℕ → Fin 5 → ℚ) (i : ℕ) : ℚ :=
  ((List.ofFn (foldMse i)).sum) / 5

/-- Model of `trainer.train_pls`: select the component count by
cross-validated scan, then refit a model of that complexity on the full
training set (`fit n` stands for `PLSRegression(n_components=n).fit(X_train,
y_train)`) and return that artifact. -/
def train_pls {α : Type} (fit : ℕ → α) (foldMse : ℕ → Fin 5 → ℚ) : α :=
  fit (train_pls_best_n (cv_mse foldMse))

/-! ## Concrete fixtures used by witnesses and counterexamples -/

-- DecidableEq for `Except`, used to evaluate embedded computations in
-- closed statements.
deriving instance DecidableEq for Except

/-- A concrete server context: a pool of one 15-wavelength all-ones sample
with true value 0, a constant model predicting 15, a never-firing anomaly
classifier, and the rational square root standing in for the float one. -/
def ctx0 : ServerCtx :=
  { predict := fun _ => 15
  , isAnomaly := fun _ => false
  , sqrt := Rat.sqrt
  , Xtest := [List.replicate 15 1]
  , ytest := [0] }

/-- A concrete tick oracle: every standard-normal draw equals 1 and the
baseline drift is 0. -/
def oracle1 : TickOracle := { draws := List.replicate 15 1, drift := 0 }

/-- The payload `ctx0` produces for a default-config tick with `oracle1`
draws: each amplitude becomes `1 * (1 + 0.02 * 1) + 0 = 51/50`, the
prediction 15 is not below the default threshold 13, so no alert. -/
def payloadDefault : Payload :=
  { actual_pol := 0
  , predicted_pol := 15
  , noisy_spectrum := List.replicate 15 (51 / 50)
  , alert := false
  , anomaly := false }

/-! ## Helper lemmas about the component-count scan of train_pls -/

/-- Invariant of the `train_pls` scan: folding `scanStep` from a state
whose stored score is the score of its stored index, over a strictly
ascending candidate list, yields a state whose score is the score of its
index, whose index is the start or one of the candidates, whose score is
minimal among the start and all candidates, and which on ties keeps the
earliest (hence smallest) candidate. -/
theorem scanStep_foldl_spec (f : ℕ → ℚ) :
    ∀ (l : List ℕ) (b : ℕ), List.Pairwise (· < ·) (b :: l) →
      ((l.foldl (scanStep f) (b, (f b : WithTop ℚ))).2
          = (f (l.foldl (scanStep f) (b, (f b : WithTop ℚ))).1 : WithTop ℚ)) ∧
      ((l.foldl (scanStep f) (b, (f b : WithTop ℚ))).1 = b
          ∨ (l.foldl (scanStep f) (b, (f b : WithTop ℚ))).1 ∈ l) ∧
      (∀ k, (k = b ∨ k ∈ l) →
          f (l.foldl (scanStep f) (b, (f b : WithTop ℚ))).1 ≤ f k) ∧
      (∀ k, (k = b ∨ k ∈ l) →
          f k = f (l.foldl (scanStep f) (b, (f b : WithTop ℚ))).1 →
          (l.foldl (scanStep f) (b, (f b : WithTop ℚ))).1 ≤ k) := by
  intro l
  induction l with
  | nil =>
    intro b _
    refine ⟨rfl, Or.inl rfl, ?_, ?_⟩
    · rintro k (rfl | hk)
      · exact le_refl _
      · simp at hk
    · rintro k (rfl | hk)
      · intro _; exact le_refl _
      · simp at hk
  | cons i tl ih =>
    intro b hpw
    have hbi : b < i := (List.pairwise_cons.mp hpw).1 i (by simp)
    have hbtl : ∀ x ∈ tl, b < x :=
      fun x hx => (List.pairwise_cons.mp hpw).1 x (by simp [hx])
    have hitl : List.Pairwise (· < ·) (i :: tl) := (List.pairwise_cons.mp hpw).2
    rw [List.foldl_cons]
    by_cases hlt : f i < f b
    · have hstep : scanStep f (b, (f b : WithTop ℚ)) i = (i, (f i : WithTop ℚ)) := by
        simp [scanStep, hlt]
      rw [hstep]
      obtain ⟨h1, h2, h3, h4⟩ := ih i hitl
      refine ⟨h1, ?_, ?_, ?_⟩
      · rcases h2 with h | h
        · exact Or.inr (by simp [h])
        · exact Or.inr (by simp [h])
      · rintro k (rfl | hk)
        · exact le_of_lt (lt_of_le_of_lt (h3 i (Or.inl rfl)) hlt)
        · rcases List.mem_cons.mp hk with rfl | hk'
          · exact h3 k (Or.inl rfl)
          · exact h3 k (Or.inr hk')
      · rintro k (rfl | hk)
        · intro heq
          exact absurd heq
            (ne_of_gt (lt_of_le_of_lt (h3 i (Or.inl rfl)) hlt))
        · rcases List.mem_cons.mp hk with rfl | hk'
          · exact h4 k (Or.inl rfl)
          · exact h4 k (Or.inr hk')
    · have hstep : scanStep f (b, (f b : WithTop ℚ)) i = (b, (f b : WithTop ℚ)) := by
        simp [scanStep, hlt]
      rw [hstep]
      have hble : f b ≤ f i := le_of_not_lt hlt
      have hbtl' : List.Pairwise (· < ·) (b :: tl) := by
        refine List.pairwise_cons.mpr ⟨hbtl, ?_⟩
        exact (List.pairwise_cons.mp hitl).2
      obtain ⟨h1, h2, h3, h4⟩ := ih b hbtl'
      refine ⟨h1, ?_, ?_, ?_⟩
      · rcases h2 with h | h
        · exact Or.inl h
        · exact Or.inr (by simp [h])
      · rintro k (rfl | hk)
        · exact h3 k (Or.inl rfl)
        · rcases List.mem_cons.mp hk with rfl | hk'
          · exact le_trans (h3 b (Or.inl rfl)) hble
          · exact h3 k (Or.inr hk')
      · rintro k (rfl | hk)
        · exact h4 k (Or.inl rfl)
        · rcases List.mem_cons.mp hk with rfl | hk'
          · intro heq
            have hres_le_b : f (tl.foldl (scanStep f) (b, (f b : WithTop ℚ))).1 ≤ f b :=
              h3 b (Or.inl rfl)
            have hres_le : (tl.foldl (scanStep f) (b, (f b : WithTop ℚ))).1 ≤ b := by
              refine h4 b (Or.inl rfl) ?_
              exact le_antisymm (heq ▸ hble) hres_le_b
            exact le_trans hres_le (le_of_lt hbi)
          · exact h4 k (Or.inr hk')

/-- The first fold step of `train_pls_best_n`: the initial `float('inf')`
is beaten by the score of the first candidate `i = 1`, so the scan over
`range(1, 15)` equals a scan over the remaining candidates started at
`(1, f 1)`. -/
theorem train_pls_best_n_eq_foldl (f : ℕ → ℚ) :
    train_pls_best_n f
      = ((List.range' 2 13).foldl (scanStep f) (1, (f 1 : WithTop ℚ))).1 := by
  have hr : List.range' 1 14 = 1 :: List.range' 2 13 := rfl
  have hstep : scanStep f (1, (⊤ : WithTop ℚ)) 1 = (1, (f 1 : WithTop ℚ)) := by
    simp [scanStep]
  rw [train_pls_best_n, hr, List.foldl_cons, hstep]

/-! ## Claim theorems -/

/-- C1 (amended): per-tick config resolution is history-free — on every
tick, first or later, a message omitting `noiseLevel` (resp. `threshold`)
makes the tick use the documented default 2.0 (resp. 13.0); the tick
behaves exactly as if the defaults had been sent explicitly, and values
supplied by earlier messages of the session are never retained. -/
theorem tick_missing_fields_use_documented_defaults (ctx : ServerCtx) (idx : ℕ)
    (cfg : MsgCfg) (o : TickOracle)
    (hn : cfg.noiseLevel = none) (ht : cfg.threshold = none) :
    effNoisePct cfg = 2 ∧ effThreshold cfg = 13 ∧
    serverTick ctx idx (Inbound.parsed cfg) o =
      serverTick ctx idx (Inbound.parsed { noiseLevel := some 2, threshold := some 13 }) o := by
  obtain ⟨nl, th⟩ := cfg
  simp only [MsgCfg.mk.injEq] at hn ht
  subst hn
  subst ht
  exact ⟨rfl, rfl, rfl⟩

/-- Witness for the C1 amended theorem at a concrete tick. -/
theorem tick_missing_fields_use_documented_defaults_witness :
    effNoisePct { noiseLevel := none, threshold := none } = 2 ∧
    effThreshold { noiseLevel := none, threshold := none } = 13 ∧
    serverTick ctx0 0 (Inbound.parsed { noiseLevel := none, threshold := none }) oracle1 =
      serverTick ctx0 0 (Inbound.parsed { noiseLevel := some 2, threshold := some 13 }) oracle1 :=
  tick_missing_fields_use_documented_defaults ctx0 0
    { noiseLevel := none, threshold := none } oracle1 rfl rfl

/-- C1 counterexample: a session whose first message sets
`noiseLevel = 100, threshold = 20` and whose second message omits both
fields.  Under the claim the second tick would reuse 100 and 20, giving a
noisy amplitude of `1 * (1 + 1 * 1) = 2` and an alert (15 < 20); the code
instead falls back to the defaults, giving amplitude
`1 * (1 + 0.02 * 1) = 51/50` and no alert (15 ≥ 13). -/
theorem tick_config_retention_counterexample :
    ((runSession ctx0 0
        [(Inbound.parsed { noiseLevel := some 100, threshold := some 20 }, oracle1),
         (Inbound.parsed { noiseLevel := none, threshold := none }, oracle1)]).1.map
      (fun p => (p.noisy_spectrum.headD 0, p.alert)))
      = [((2 : ℚ), true), ((51 / 50 : ℚ), false)] ∧
    ((51 / 50 : ℚ), false) ≠ ((2 : ℚ), true) := by
  have t1 : serverTick ctx0 0
      (Inbound.parsed { noiseLevel := some 100, threshold := some 20 }) oracle1
      = Except.ok
        ({ actual_pol := 0
         , predicted_pol := 15
         , noisy_spectrum := List.replicate 15 2
         , alert := true
         , anomaly := false }, 0) := by
    simp [serverTick, ctx0, oracle1, effNoisePct, effThreshold, add_industrial_noise,
          preprocess_spectra, advanceCursor, List.replicate, Except.bind]
    norm_num [Except.bind]
  have t2 : serverTick ctx0 0
      (Inbound.parsed { noiseLevel := none, threshold := none }) oracle1
      = Except.ok
        ({ actual_pol := 0
         , predicted_pol := 15
         , noisy_spectrum := List.replicate 15 (51 / 50)
         , alert := false
         , anomaly := false }, 0) := by
    simp [serverTick, ctx0, oracle1, effNoisePct, effThreshold, add_industrial_noise,
          preprocess_spectra, advanceCursor, List.replicate, Except.bind]
    norm_num [Except.bind]
  refine ⟨?_, by simp⟩
  simp [runSession, t1, t2, List.replicate]

/-- C2 (amended): a malformed per-tick message is fatal to its session —
`json.loads` raises, the `while True` loop of `websocket_endpoint` catches
only `WebSocketDisconnect`, so the exception terminates the handler: the
session emits nothing further and no subsequent frame of that session is
processed. -/
theorem malformed_message_terminates_session (ctx : ServerCtx) (idx : ℕ)
    (o : TickOracle) (rest : List (Inbound × TickOracle)) :
    serverTick ctx idx Inbound.malformed o = Except.error PyErr.jsonDecodeError ∧
    runSession ctx idx ((Inbound.malformed, o) :: rest) = ([], some PyErr.jsonDecodeError) :=
  ⟨rfl, rfl⟩

/-- C2 counterexample: in a session receiving a malformed frame and then a
well-formed one, the well-formed frame is never processed (no payload is
emitted and the session run ends in the uncaught decode error), although
the same well-formed frame processed by a live session does produce a
payload. -/
theorem malformed_message_counterexample :
    runSession ctx0 0
        [(Inbound.malformed, oracle1),
         (Inbound.parsed { noiseLevel := none, threshold := none }, oracle1)]
      = ([], some PyErr.jsonDecodeError) ∧
    (runSession ctx0 0
        [(Inbound.parsed { noiseLevel := none, threshold := none }, oracle1)]).1.length = 1 := by
  refine ⟨rfl, ?_⟩
  have t2 : serverTick ctx0 0
      (Inbound.parsed { noiseLevel := none, threshold := none }) oracle1
      = Except.ok
        ({ actual_pol := 0
         , predicted_pol := 15
         , noisy_spectrum := List.replicate 15 (51 / 50)
         , alert := false
         , anomaly := false }, 0) := by
    simp [serverTick, ctx0, oracle1, effNoisePct, effThreshold, add_industrial_noise,
          preprocess_spectra, advanceCursor, List.replicate, Except.bind]
    norm_num [Except.bind]
  simp [runSession, t2]

/-- C4: the session cursor starts at 0 and advances by
`(cursor + 1) % poolSize` each tick, so after `t` ticks it equals
`t % poolSize`; it therefore always lies in `[0, poolSize)` (no
out-of-range condition), is cyclic with period exactly `poolSize`, and for
`poolSize = 5` ten ticks visit `[0,1,2,3,4,0,1,2,3,4]`. -/
theorem cursor_modular_invariant (n t : ℕ) (h : 0 < n) :
    cursorAt n t = t % n ∧
    cursorAt n t < n ∧
    cursorAt n (t + 1) = advanceCursor n (cursorAt n t) ∧
    cursorAt n (t + n) = cursorAt n t ∧
    (List.range 10).map (cursorAt 5) = [0, 1, 2, 3, 4, 0, 1, 2, 3, 4] := by
  have key : ∀ s, cursorAt n s = s % n := by
    intro s
    induction s with
    | zero => simp [cursorAt]
    | succ s ih =>
      show advanceCursor n (cursorAt n s) = (s + 1) % n
      rw [advanceCursor, ih, Nat.mod_add_mod]
  refine ⟨key t, ?_, rfl, ?_, by decide⟩
  · rw [key t]; exact Nat.mod_lt _ h
  · rw [key, key, Nat.add_mod_right]

/-- Witness for C4 at `poolSize = 5`, `t = 7`. -/
theorem cursor_modular_invariant_witness :
    cursorAt 5 7 = 7 % 5 ∧
    cursorAt 5 7 < 5 ∧
    cursorAt 5 (7 + 1) = advanceCursor 5 (cursorAt 5 7) ∧
    cursorAt 5 (7 + 5) = cursorAt 5 7 ∧
    (List.range 10).map (cursorAt 5) = [0, 1, 2, 3, 4, 0, 1, 2, 3, 4] :=
  cursor_modular_invariant 5 7 (by decide)

/-- C5: in every successfully emitted payload, the alert flag is true iff
the predicted value is strictly below the tick's effective threshold; at
the boundary (predicted value equal to the threshold) the alert is false. -/
theorem alert_iff_strictly_below_threshold (ctx : ServerCtx) (idx : ℕ) (cfg : MsgCfg)
    (o : TickOracle) (p : Payload) (j : ℕ)
    (h : serverTick ctx idx (Inbound.parsed cfg) o = Except.ok (p, j)) :
    (p.alert = true ↔ p.predicted_pol < effThreshold cfg) ∧
    (p.predicted_pol = effThreshold cfg → p.alert = false) := by
  simp only [serverTick] at h
  cases hn : add_industrial_noise (ctx.Xtest.getD idx []) (effNoisePct cfg / 100)
      o.draws o.drift with
  | error e => rw [hn] at h; simp [Except.bind] at h
  | ok ns =>
    rw [hn] at h
    simp only [Except.bind] at h
    cases hp : preprocess_spectra ctx.sqrt [ns] with
    | error e => rw [hp] at h; simp at h
    | ok prep =>
      rw [hp] at h
      simp only [Except.ok.injEq, Prod.mk.injEq] at h
      obtain ⟨h1, h2⟩ := h
      subst h1
      constructor
      · simp
      · intro heq
        simp at heq
        simp [heq]

/-- Witness for C5 at a concrete successful tick. -/
theorem alert_iff_strictly_below_threshold_witness :
    serverTick ctx0 0 (Inbound.parsed { noiseLevel := none, threshold := none }) oracle1
      = Except.ok (payloadDefault, 0) ∧
    ((payloadDefault.alert = true ↔
        payloadDefault.predicted_pol < effThreshold { noiseLevel := none, threshold := none }) ∧
      (payloadDefault.predicted_pol = effThreshold { noiseLevel := none, threshold := none } →
        payloadDefault.alert = false)) := by
  have h : serverTick ctx0 0
      (Inbound.parsed { noiseLevel := none, threshold := none }) oracle1
      = Except.ok (payloadDefault, 0) := by
    simp [serverTick, ctx0, oracle1, payloadDefault, effNoisePct, effThreshold,
          add_industrial_noise, preprocess_spectra, advanceCursor, List.replicate,
          Except.bind]
    norm_num [Except.bind]
  exact ⟨h, alert_iff_strictly_below_threshold ctx0 0
    { noiseLevel := none, threshold := none } oracle1 payloadDefault 0 h⟩

/-- C6: `train_pls` scans the candidate component counts 1..14 in ascending
order, scores each by the mean of its 5 cross-validation fold errors,
selects the count with the lowest score breaking ties in favour of the
smallest count, and returns the model of that count refit on the full
training set. -/
theorem train_pls_component_selection {α : Type} (fit : ℕ → α) (foldMse : ℕ → Fin 5 → ℚ) :
    (1 ≤ train_pls_best_n (cv_mse foldMse) ∧ train_pls_best_n (cv_mse foldMse) ≤ 14) ∧
    (∀ k, 1 ≤ k → k ≤ 14 →
      cv_mse foldMse (train_pls_best_n (cv_mse foldMse)) ≤ cv_mse foldMse k) ∧
    (∀ k, 1 ≤ k → k ≤ 14 →
      cv_mse foldMse k = cv_mse foldMse (train_pls_best_n (cv_mse foldMse)) →
      train_pls_best_n (cv_mse foldMse) ≤ k) ∧
    train_pls fit foldMse = fit (train_pls_best_n (cv_mse foldMse)) ∧
    (∀ i, cv_mse foldMse i = ((List.ofFn (foldMse i)).sum) / 5) := by
  have hpw : List.Pairwise (· < ·) ((1 : ℕ) :: List.range' 2 13) := by decide
  obtain ⟨_, hmem, hmin, hties⟩ :=
    scanStep_foldl_spec (cv_mse foldMse) (List.range' 2 13) 1 hpw
  have hmem14 : ∀ k : ℕ, (1 ≤ k ∧ k ≤ 14) → (k = 1 ∨ k ∈ List.range' 2 13) := by
    rintro k ⟨h1, h14⟩
    rcases Nat.eq_or_lt_of_le h1 with h | h
    · exact Or.inl h.symm
    · exact Or.inr (List.mem_range'_1.mpr ⟨h, by omega⟩)
  rw [train_pls_best_n_eq_foldl (cv_mse foldMse)]
  refine ⟨?_, ?_, ?_, rfl, fun i => rfl⟩
  · rcases hmem with h | h
    · rw [h]; exact ⟨le_refl 1, by norm_num⟩
    · have := List.mem_range'_1.mp h
      omega
  · intro k h1 h14
    exact hmin k (hmem14 k ⟨h1, h14⟩)
  · intro k h1 h14 heq
    exact hties k (hmem14 k ⟨h1, h14⟩) heq

/-- Witness for C6: with all-zero fold errors, the selected count's score
is minimal at the candidate k = 3. -/
theorem train_pls_component_selection_witness :
    cv_mse (fun _ _ => (0 : ℚ))
        (train_pls_best_n (cv_mse (fun _ _ => (0 : ℚ))))
      ≤ cv_mse (fun _ _ => (0 : ℚ)) 3 :=
  (train_pls_component_selection (fun n => n) (fun _ _ => (0 : ℚ))).2.1 3
    (by norm_num) (by norm_num)

/-- C7: the report aggregation returns the sample count, the arithmetic
mean of the predicted values, and the number of values strictly below the
fixed threshold 13.0; on `[10, 12, 14, 16]` the average is 13 and the
breach count is 2. -/
theorem report_aggregation_correct (d : ReportData) (h : d.predicted_pol ≠ []) :
    (generate_report d).totalSamples = d.predicted_pol.length ∧
    (generate_report d).avgPol = d.predicted_pol.sum / (d.predicted_pol.length : ℚ) ∧
    (generate_report d).lowPolAlerts
      = (d.predicted_pol.filter (fun p => decide (p < 13))).length ∧
    generate_report ⟨[], [10, 12, 14, 16], []⟩
      = { totalSamples := 4, avgPol := 13, lowPolAlerts := 2 } := by
  refine ⟨rfl, ?_, rfl, ?_⟩
  · simp [generate_report, List.isEmpty_iff, h]
  · simp [generate_report, List.filter]
    norm_num

/-- Witness for C7 on the spec's own example list. -/
theorem report_aggregation_correct_witness :
    (generate_report ⟨[], [10, 12, 14, 16], []⟩).totalSamples
      = ([10, 12, 14, 16] : List ℚ).length ∧
    (generate_report ⟨[], [10, 12, 14, 16], []⟩).avgPol
      = ([10, 12, 14, 16] : List ℚ).sum / (([10, 12, 14, 16] : List ℚ).length : ℚ) ∧
    (generate_report ⟨[], [10, 12, 14, 16], []⟩).lowPolAlerts
      = (([10, 12, 14, 16] : List ℚ).filter (fun p => decide (p < 13))).length ∧
    generate_report ⟨[], [10, 12, 14, 16], []⟩
      = { totalSamples := 4, avgPol := 13, lowPolAlerts := 2 } :=
  report_aggregation_correct ⟨[], [10, 12, 14, 16], []⟩ (by simp)

/-- C8: report generation on an empty predicted-value sequence does not
divide by zero: the average resolves to 0 and the counts are 0. -/
theorem report_empty_input_defined :
    generate_report ⟨[], [], []⟩
      = { totalSamples := 0, avgPol := 0, lowPolAlerts := 0 } := rfl

/-- C9: a spectrum shorter than the 15-sample smoothing window makes
preprocessing fail fast with the descriptive precondition `ValueError`
(both as a one-row batch and as a 1-D array), and no result is ever
returned for such input. -/
theorem short_spectrum_fails_fast (sq : ℚ → ℚ) (S : List ℚ) (h : S.length < 15) :
    preprocess_spectra sq [S] = Except.error (PyErr.valueError windowLengthMsg) ∧
    preprocess_spectra1d S = Except.error (PyErr.valueError windowLengthMsg) ∧
    ∀ out, preprocess_spectra sq [S] ≠ Except.ok out := by
  refine ⟨?_, ?_, ?_⟩
  · simp [preprocess_spectra, h]
  · simp [preprocess_spectra1d, h]
  · intro out
    simp [preprocess_spectra, h]

/-- Witness for C9 on a 14-sample spectrum. -/
theorem short_spectrum_fails_fast_witness :
    preprocess_spectra Rat.sqrt [List.replicate 14 0]
      = Except.error (PyErr.valueError windowLengthMsg) ∧
    preprocess_spectra1d (List.replicate 14 0)
      = Except.error (PyErr.valueError windowLengthMsg) ∧
    ∀ out, preprocess_spectra Rat.sqrt [List.replicate 14 0] ≠ Except.ok out :=
  short_spectrum_fails_fast Rat.sqrt (List.replicate 14 0) (by simp)

/-- C10: a tick whose message carries a negative `noiseLevel` aborts with
the unhandled `ValueError` from gaussian sampling (negative standard
deviation) — the value is neither validated nor clamped, no error
acknowledgment is sent, and the uncaught exception ends the session run. -/
theorem negative_noise_level_unhandled (ctx : ServerCtx) (idx : ℕ) (cfg : MsgCfg)
    (o : TickOracle) (q : ℚ) (rest : List (Inbound × TickOracle))
    (hq : cfg.noiseLevel = some q) (hneg : q < 0) :
    serverTick ctx idx (Inbound.parsed cfg) o
      = Except.error (PyErr.valueError "scale < 0") ∧
    runSession ctx idx ((Inbound.parsed cfg, o) :: rest)
      = ([], some (PyErr.valueError "scale < 0")) := by
  have hpct : effNoisePct cfg = q := by simp [effNoisePct, hq]
  have hlt : effNoisePct cfg / 100 < 0 := by
    rw [hpct]
    exact div_neg_of_neg_of_pos hneg (by norm_num)
  have htick : serverTick ctx idx (Inbound.parsed cfg) o
      = Except.error (PyErr.valueError "scale < 0") := by
    simp only [serverTick, add_industrial_noise, if_pos hlt, Except.bind]
  refine ⟨htick, ?_⟩
  simp [runSession, htick]

/-- Witness for C10 at `noiseLevel = -1`. -/
theorem negative_noise_level_unhandled_witness :
    serverTick ctx0 0 (Inbound.parsed { noiseLevel := some (-1), threshold := none }) oracle1
      = Except.error (PyErr.valueError "scale < 0") ∧
    runSession ctx0 0
        [(Inbound.parsed { noiseLevel := some (-1), threshold := none }, oracle1)]
      = ([], some (PyErr.valueError "scale < 0")) :=
  negative_noise_level_unhandled ctx0 0
    { noiseLevel := some (-1), threshold := none } oracle1 (-1) [] rfl (by norm_num)

/-- C3 counterexample: at a valid 15-sample spectrum the one-row batch call
succeeds and returns the processed row, while the direct 1-D call raises
the numpy `AxisError` (the SNV step's `np.mean(..., axis=1)` is out of
bounds for a 1-D array), so `preprocess(batch=[S])[0] == preprocess(S)`
fails. -/
theorem batch_single_equivalence_counterexample :
    preprocess_spectra1d (List.replicate 15 0) = Except.error PyErr.axisError ∧
    (preprocess_spectra Rat.sqrt [List.replicate 15 0]).bind
        (fun L => Except.ok (L.getD 0 []))
      = Except.ok (processRow Rat.sqrt (List.replicate 15 0)) ∧
    (preprocess_spectra Rat.sqrt [List.replicate 15 0]).bind
        (fun L => Except.ok (L.getD 0 []))
      ≠ preprocess_spectra1d (List.replicate 15 0) := by
  have h1 : preprocess_spectra1d (List.replicate 15 0) = Except.error PyErr.axisError := by
    simp [preprocess_spectra1d]
  have h2 : preprocess_spectra Rat.sqrt [List.replicate 15 0]
      = Except.ok [processRow Rat.sqrt (List.replicate 15 0)] := by
    simp [preprocess_spectra]
  refine ⟨h1, ?_, ?_⟩
  · rw [h2]; rfl
  · rw [h2, h1]
    simp [Except.bind]

/-- C3 (amended): the batch entry point processes rows independently — for
every batch whose rows all have valid length, the first row of the
processed batch equals the processed one-row batch of its first row, and
the whole batch maps `processRow` over its rows; but the stated
single-spectrum form `preprocess(S)` does not exist (a 1-D call raises an
`AxisError`), so the equivalence only holds between batch calls. -/
theorem preprocess_batch_rows_independent (sq : ℚ → ℚ) (S : List ℚ) (B : List (List ℚ))
    (hS : 15 ≤ S.length) (hB : ∀ r ∈ B, 15 ≤ r.length) :
    (preprocess_spectra sq (S :: B)).bind (fun L => Except.ok (L.getD 0 []))
      = (preprocess_spectra sq [S]).bind (fun L => Except.ok (L.getD 0 [])) ∧
    preprocess_spectra sq (S :: B)
      = Except.ok (processRow sq S :: B.map (processRow sq)) := by
  have hg : ((S :: B).any (fun r => decide (r.length < 15))) = false := by
    simp only [List.any_eq_false, decide_eq_true_eq]
    intro r hr
    rcases List.mem_cons.mp hr with rfl | hr'
    · omega
    · have := hB r hr'
      omega
  have hg1 : (([S] : List (List ℚ)).any (fun r => decide (r.length < 15))) = false := by
    simp only [List.any_eq_false, decide_eq_true_eq, List.mem_singleton]
    rintro r rfl
    omega
  have hbatch : preprocess_spectra sq (S :: B)
      = Except.ok (processRow sq S :: B.map (processRow sq)) := by
    simp [preprocess_spectra, hg]
  have hone : preprocess_spectra sq [S] = Except.ok [processRow sq S] := by
    simp [preprocess_spectra, hg1]
  refine ⟨?_, hbatch⟩
  rw [hbatch, hone]
  rfl

/-- Witness for the C3 amended theorem on a concrete valid batch. -/
theorem preprocess_batch_rows_independent_witness :
    (preprocess_spectra Rat.sqrt [List.replicate 15 1, List.replicate 15 2]).bind
        (fun L => Except.ok (L.getD 0 []))
      = (preprocess_spectra Rat.sqrt [List.replicate 15 1]).bind
        (fun L => Except.ok (L.getD 0 [])) ∧
    preprocess_spectra Rat.sqrt [List.replicate 15 1, List.replicate 15 2]
      = Except.ok (processRow Rat.sqrt (List.replicate 15 1)
          :: [List.replicate 15 2].map (processRow Rat.sqrt)) :=
  preprocess_batch_rows_independent Rat.sqrt (List.replicate 15 1)
    [List.replicate 15 2] (by simp) (by simp)
